import Mathlib

/-!
Verification development for the SEO keyword-research tool.

The embedding below follows the repository's TypeScript sources:
  * `types.ts` — the `KeywordData` record shape;
  * `services/geminiService.ts` (`generateKeywordsAndMetrics`) — parse of the
    service reply, per-record id assignment, and the error-rewrapping catch;
  * `App.tsx` — the application state (`useState` hooks) and its handlers
    `handleGenerateKeywords`, `handleSaveKeyword`, `handleClearAllSavedKeywords`,
    `loadSavedKeywords`, `saveKeywordsToLocalStorage`, and the derived view
    `filteredSavedKeywords`;
  * `components/KeywordInput.tsx` — the count-input clamp and `handleSubmit`
    validation.

Host-environment primitives (the browser's `localStorage`, `JSON.stringify`,
`JSON.parse`, `crypto.randomUUID`) are not code of this repository; they are
modelled as explicit parameters, with their ECMAScript contracts taken as
hypotheses where a claim needs them.  TypeScript union-of-literal types carry
no runtime checks, so enumerated fields are embedded as `String` together with
membership predicates over the declared value sets.
-/

/-- The record shape of `types.ts`.  The three enumerated fields are string
literals in TypeScript (unchecked at runtime), embedded as `String` with the
declared value sets below. -/
structure KeywordData where
  id : String
  keyword : String
  difficulty : String
  searchVolume : String
  competitionLevel : String
  estimatedCpc : String
  contentIdeas : List String
  serpFeatures : List String
deriving DecidableEq, Repr

/-- Declared values of `KeywordData.difficulty` (`types.ts`). -/
def difficultyLevels : List String := ["Low", "Medium", "High", "Very High"]

/-- Declared values of `KeywordData.searchVolume` (`types.ts`). -/
def searchVolumeRanges : List String :=
  ["0-10", "10-100", "100-1K", "1K-10K", "10K-100K", "100K+"]

/-- Declared values of `KeywordData.competitionLevel` (`types.ts`). -/
def competitionLevels : List String := ["Low", "Medium", "High", "Very High"]

/-- The three enumerated fields lie in their declared value sets. -/
def KeywordData.enumsDeclared (kw : KeywordData) : Prop :=
  kw.difficulty ∈ difficultyLevels ∧ kw.searchVolume ∈ searchVolumeRanges ∧
    kw.competitionLevel ∈ competitionLevels

instance (kw : KeywordData) : Decidable kw.enumsDeclared := by
  unfold KeywordData.enumsDeclared; infer_instance

/-- One element of the service reply as parsed by `generateKeywordsAndMetrics`
(`Omit<KeywordData, 'id'>`): the seven declared fields, no `id`. -/
structure RawKeyword where
  keyword : String
  difficulty : String
  searchVolume : String
  competitionLevel : String
  estimatedCpc : String
  contentIdeas : List String
  serpFeatures : List String
deriving DecidableEq, Repr

/-- Forget the client-assigned `id`, recovering the reply element. -/
def stripId (k : KeywordData) : RawKeyword :=
  ⟨k.keyword, k.difficulty, k.searchVolume, k.competitionLevel,
    k.estimatedCpc, k.contentIdeas, k.serpFeatures⟩

/-- A reply element adheres to the response schema's enum constraints
(`responseSchema` in `geminiService.ts`). -/
def RawKeyword.schemaCompliant (kw : RawKeyword) : Prop :=
  kw.difficulty ∈ difficultyLevels ∧ kw.searchVolume ∈ searchVolumeRanges ∧
    kw.competitionLevel ∈ competitionLevels

instance (kw : RawKeyword) : Decidable kw.schemaCompliant := by
  unfold RawKeyword.schemaCompliant; infer_instance

/-- `parsedKeywords.map(kw => ({...kw, id: crypto.randomUUID()}))`:
one `crypto.randomUUID()` call per element, in order.  `uuid n` is the value
of the (n+1)-st call; `i` is the index of the next call. -/
def assignIds (uuid : Nat → String) (i : Nat) : List RawKeyword → List KeywordData
  | [] => []
  | kw :: rest =>
      { id := uuid i, keyword := kw.keyword, difficulty := kw.difficulty,
        searchVolume := kw.searchVolume, competitionLevel := kw.competitionLevel,
        estimatedCpc := kw.estimatedCpc, contentIdeas := kw.contentIdeas,
        serpFeatures := kw.serpFeatures } :: assignIds uuid (i + 1) rest

/-- Success path of `generateKeywordsAndMetrics` (`geminiService.ts`): the
seed and count only shape the request prompt; the parsed reply is mapped to
records with freshly drawn ids.  No truncation to `numKeywords` and no field
validation is performed by the code. -/
def generateKeywordsAndMetrics (seedKeyword : String) (numKeywords : Nat)
    (uuid : Nat → String) (parsedKeywords : List RawKeyword) : List KeywordData :=
  let _ := seedKeyword
  let _ := numKeywords
  assignIds uuid 0 parsedKeywords

/-- JavaScript `s.includes(pattern)`: `pattern` occurs contiguously in `s`. -/
def strIncludes (s pattern : String) : Bool :=
  decide (pattern.toList <:+: s.toList)

/-- The failure signature matched by both catch blocks. -/
def ENTITY_NOT_FOUND_SIG : String := "Requested entity was not found."

/-- Message thrown by `generateKeywordsAndMetrics` when the caught service
error matches the signature (`geminiService.ts`). -/
def GEMINI_API_KEY_ERROR_MSG : String :=
  "API Key issue or model not found. Please ensure a valid API key is selected."

/-- Message thrown by `generateKeywordsAndMetrics` for every other caught
service error (`geminiService.ts`). -/
def GEMINI_GENERIC_ERROR_MSG : String :=
  "Failed to fetch keyword data. Please try again."

/-- Guard message set by `handleGenerateKeywords` when no API key is selected
(`App.tsx`). -/
def API_KEY_NOT_SELECTED_MSG : String :=
  "API Key not selected. Please select your API key to proceed."

/-- Credential message set by `handleGenerateKeywords` when the caught error
matches the signature (`App.tsx`). -/
def API_KEY_INVALID_MSG : String :=
  "API Key invalid or expired, or model not found. Please select your API key again."

/-- Fallback message of `setError(err.message || '...')` in `App.tsx`. -/
def UNEXPECTED_ERROR_MSG : String :=
  "An unexpected error occurred. Please try again."

/-- Catch block of `generateKeywordsAndMetrics` (`geminiService.ts`): a
service failure with message `serviceMessage` is re-thrown as a new `Error`
whose message is one of the two fixed strings above. -/
def generateKeywordsRethrowMessage (serviceMessage : String) : String :=
  if strIncludes serviceMessage ENTITY_NOT_FOUND_SIG then GEMINI_API_KEY_ERROR_MSG
  else GEMINI_GENERIC_ERROR_MSG

/-- JSON values as seen by the host's `JSON.parse` / `JSON.stringify`. -/
inductive JsValue where
  | jnull : JsValue
  | jbool : Bool → JsValue
  | jnum : Int → JsValue
  | jstr : String → JsValue
  | jarr : List JsValue → JsValue
  | jobj : List (String × JsValue) → JsValue

/-- The JSON document `JSON.stringify` sees for one in-memory `KeywordData`
object: its eight own enumerable properties in declaration order. -/
def encodeKeyword (kw : KeywordData) : JsValue :=
  JsValue.jobj
    [("id", JsValue.jstr kw.id),
     ("keyword", JsValue.jstr kw.keyword),
     ("difficulty", JsValue.jstr kw.difficulty),
     ("searchVolume", JsValue.jstr kw.searchVolume),
     ("competitionLevel", JsValue.jstr kw.competitionLevel),
     ("estimatedCpc", JsValue.jstr kw.estimatedCpc),
     ("contentIdeas", JsValue.jarr (kw.contentIdeas.map JsValue.jstr)),
     ("serpFeatures", JsValue.jarr (kw.serpFeatures.map JsValue.jstr))]

/-- The JSON document for the in-memory `savedKeywords` array. -/
def encodeList (l : List KeywordData) : JsValue :=
  JsValue.jarr (l.map encodeKeyword)

/-- The host's string key-value store (`localStorage`): `getItem` is
application, `none` is JavaScript `null`. -/
def LocalStorage : Type := String → Option String

/-- The single key used by `App.tsx`. -/
def LOCAL_STORAGE_KEY : String := "seoKeywords_saved"

/-- `localStorage.setItem(k, v)` on an honest store: subsequent `getItem(k)`
returns exactly the string written. -/
def lsSetItem (store : LocalStorage) (k v : String) : LocalStorage :=
  fun k' => if k' = k then some v else store k'

/-- `saveKeywordsToLocalStorage` (`App.tsx`): writes
`JSON.stringify(keywordsToSave)` under `LOCAL_STORAGE_KEY`; its try/catch
makes it total — when the write throws (`writeFails = true`) the failure is
only logged and the store is unchanged.  `stringifyJs` stands for the host's
`JSON.stringify`. -/
def saveKeywordsToLocalStorage (stringifyJs : JsValue → String) (writeFails : Bool)
    (store : LocalStorage) (keywordsToSave : List KeywordData) : LocalStorage :=
  if writeFails then store
  else lsSetItem store LOCAL_STORAGE_KEY (stringifyJs (encodeList keywordsToSave))

/-- The `useState` hooks of `App` (`App.tsx`), plus the backing store.
Filter value `none` is the `'All'` option (no constraint); `some v` is an
exact-match constraint. -/
structure AppState where
  keywords : List KeywordData
  savedKeywords : List KeywordData
  isLoading : Bool
  error : Option String
  hasApiKey : Bool
  selectedDifficultyFilter : Option String
  selectedVolumeFilter : Option String
  selectedCompetitionFilter : Option String
  store : LocalStorage

/-- Outcome of the awaited `generateKeywordsAndMetrics(...)` call:
either the returned record list or the message of the thrown `Error`. -/
inductive GenOutcome where
  | success : List KeywordData → GenOutcome
  | failure : String → GenOutcome

/-- `handleGenerateKeywords` (`App.tsx`), as the completed state transition.
`setIsLoading(true)`, `setError(null)` and `setKeywords([])` run before the
`hasApiKey` guard; the guarded branch returns without invoking the client
(the `outcome` argument is only consulted on the credential-available path);
the `finally` block leaves `isLoading` false on every path. -/
def handleGenerateKeywords (s : AppState) (outcome : GenOutcome) : AppState :=
  let s1 : AppState :=
    { s with isLoading := true, error := none, keywords := [] }
  if s1.hasApiKey then
    match outcome with
    | GenOutcome.success generatedKeywords =>
        { s1 with keywords := generatedKeywords, isLoading := false }
    | GenOutcome.failure m =>
        if strIncludes m ENTITY_NOT_FOUND_SIG then
          { s1 with hasApiKey := false, error := some API_KEY_INVALID_MSG,
                    isLoading := false }
        else
          { s1 with error := some (if m = "" then UNEXPECTED_ERROR_MSG else m),
                    isLoading := false }
  else
    { s1 with error := some API_KEY_NOT_SELECTED_MSG, isLoading := false }

/-- `handleSaveKeyword` (`App.tsx`): no-op when a record of the same `id` is
already saved; otherwise appends and persists the new collection. -/
def handleSaveKeyword (stringifyJs : JsValue → String) (writeFails : Bool)
    (s : AppState) (keywordToSave : KeywordData) : AppState :=
  if s.savedKeywords.any (fun kw => kw.id == keywordToSave.id) then s
  else
    let newSaved := s.savedKeywords ++ [keywordToSave]
    { s with savedKeywords := newSaved,
             store := saveKeywordsToLocalStorage stringifyJs writeFails s.store newSaved }

/-- `handleClearAllSavedKeywords` (`App.tsx`): empties the saved collection,
persists the empty collection, and resets the three filters to `'All'`. -/
def handleClearAllSavedKeywords (stringifyJs : JsValue → String) (writeFails : Bool)
    (s : AppState) : AppState :=
  { s with savedKeywords := [],
           store := saveKeywordsToLocalStorage stringifyJs writeFails s.store [],
           selectedDifficultyFilter := none,
           selectedVolumeFilter := none,
           selectedCompetitionFilter := none }

/-- `isKeywordSaved` (`App.tsx`): membership by `id`. -/
def isKeywordSaved (s : AppState) (keyword : KeywordData) : Bool :=
  s.savedKeywords.any (fun sk => sk.id == keyword.id)

/-- The filter predicate of `filteredSavedKeywords` (`App.tsx`):
conjunction of the three per-axis tests, `'All'` matching everything. -/
def keywordMatchesFilters (s : AppState) (kw : KeywordData) : Bool :=
  (match s.selectedDifficultyFilter with
   | none => true
   | some d => kw.difficulty == d) &&
  (match s.selectedVolumeFilter with
   | none => true
   | some v => kw.searchVolume == v) &&
  (match s.selectedCompetitionFilter with
   | none => true
   | some c => kw.competitionLevel == c)

/-- `filteredSavedKeywords` (`App.tsx`): the derived view over
`savedKeywords`. -/
def filteredSavedKeywords (s : AppState) : List KeywordData :=
  s.savedKeywords.filter (keywordMatchesFilters s)

/-- `loadSavedKeywords` (`App.tsx`), over the dynamic (untyped) value that
`setSavedKeywords(JSON.parse(...))` stores: absent key keeps the previous
value; a truthy stored string (non-empty — JavaScript `if (storedKeywords)`)
is parsed and the parsed value installed verbatim, with no shape validation;
a parse failure hits the catch and resets to the empty array.  `parseJs`
stands for the host's `JSON.parse`. -/
def loadSavedKeywords (parseJs : String → Except Unit JsValue)
    (store : LocalStorage) (savedKeywords : JsValue) : JsValue :=
  match store LOCAL_STORAGE_KEY with
  | none => savedKeywords
  | some storedKeywords =>
      if storedKeywords = "" then savedKeywords
      else
        match parseJs storedKeywords with
        | Except.ok v => v
        | Except.error _ => JsValue.jarr []

/-- JavaScript `parseInt(e.target.value) || 1` (`KeywordInput.tsx`):
`none` models a `NaN` parse (empty or non-numeric input); both `NaN` and `0`
are falsy, so they yield `1`. -/
def jsParseIntOr1 : Option Int → Int
  | none => 1
  | some n => if n = 0 then 1 else n

/-- The count-input change handler (`KeywordInput.tsx`):
`Math.max(1, Math.min(20, parseInt(v) || 1))`. -/
def clampNumKeywords (p : Option Int) : Int :=
  max 1 (min 20 (jsParseIntOr1 p))

/-- The `useState` default of the count input (`KeywordInput.tsx`). -/
def initialNumKeywords : Int := 10

/-- Seed-validation message of `handleSubmit` (`KeywordInput.tsx`). -/
def SEED_ERROR_MSG : String := "Please enter a seed keyword."

/-- Range-validation message of `handleSubmit` (`KeywordInput.tsx`). -/
def NUM_RANGE_ERROR_MSG : String := "Number of keywords must be between 1 and 20."

/-- `handleSubmit` validation (`KeywordInput.tsx`): `some msg` is the inline
error set; `none` means validation passed and `onSubmit` runs. -/
def handleSubmit (seedKeyword : String) (numKeywords : Int) : Option String :=
  if seedKeyword.trim = "" then some SEED_ERROR_MSG
  else if numKeywords < 1 ∨ 20 < numKeywords then some NUM_RANGE_ERROR_MSG
  else none

/-- Concrete record used by witnesses. -/
def sampleKeyword : KeywordData :=
  { id := "kw-1", keyword := "best cat toys", difficulty := "Low",
    searchVolume := "1K-10K", competitionLevel := "Medium",
    estimatedCpc := "$0.50 - $1.50", contentIdeas := ["Top 10 cat toys"],
    serpFeatures := ["Featured Snippet"] }

/-- Second concrete record (distinct `id`) used by witnesses. -/
def sampleKeywordB : KeywordData :=
  { id := "kw-2", keyword := "cat beds", difficulty := "High",
    searchVolume := "100-1K", competitionLevel := "Low",
    estimatedCpc := "N/A", contentIdeas := [], serpFeatures := [] }

/-- A fresh post-bootstrap state with a selected API key. -/
def c1InitialState : AppState :=
  { keywords := [], savedKeywords := [], isLoading := false, error := none,
    hasApiKey := true, selectedDifficultyFilter := none,
    selectedVolumeFilter := none, selectedCompetitionFilter := none,
    store := fun _ => none }

/-- A state without an API key but with an existing generated batch. -/
def c6State : AppState :=
  { c1InitialState with hasApiKey := false, keywords := [sampleKeyword] }

/-- Concrete uuid supply for closed evaluations. -/
def cexUuid : Nat → String := fun i => Nat.repr i

/-- A parsed service reply of two objects — one more than the requested
count of 1, the second with a difficulty outside the declared set. -/
def cexReply : List RawKeyword :=
  [⟨"cat toys for indoor cats", "Low", "0-10", "Low", "N/A", [], []⟩,
   ⟨"cat beds for large cats", "Impossible", "0-10", "Low", "N/A", [], []⟩]

/-- Concrete stand-in for `JSON.stringify` in the round-trip witness. -/
def c7Stringify : JsValue → String := fun _ => "[stored]"

/-- Concrete stand-in for `JSON.parse` in the round-trip witness: inverts
`c7Stringify` on the one stored document. -/
def c7Parse : String → Except Unit JsValue := fun s =>
  if s = "[stored]" then Except.ok (encodeList [sampleKeyword]) else Except.error ()

/-- Empty backing store for witnesses. -/
def emptyStore : LocalStorage := fun _ => none

/-- Concrete stand-in for `JSON.parse` in the load-path witness. -/
def c10Parse : String → Except Unit JsValue := fun s =>
  if s = "stored-json-doc" then Except.ok (JsValue.jstr "whatever shape")
  else Except.error ()

/-- A state with two saved records and no filter constraints. -/
def c5State : AppState :=
  { c1InitialState with savedKeywords := [sampleKeyword, sampleKeywordB] }

/-- Concrete store holding a parseable document in the load-path witness. -/
def c10Store : LocalStorage := fun k =>
  if k = LOCAL_STORAGE_KEY then some "stored-json-doc" else none

theorem assignIds_map_stripId (uuid : Nat → String) (i : Nat) (l : List RawKeyword) :
    (assignIds uuid i l).map stripId = l := by
  induction l generalizing i with
  | nil => rfl
  | cons kw rest ih => simp [assignIds, stripId, ih]

theorem assignIds_map_id (uuid : Nat → String) (i : Nat) (l : List RawKeyword) :
    (assignIds uuid i l).map KeywordData.id = (List.range' i l.length).map uuid := by
  induction l generalizing i with
  | nil => rfl
  | cons kw rest ih => simp [assignIds, List.range', ih]

theorem handleSaveKeyword_of_dup (sj : JsValue → String) (wf : Bool)
    (t : AppState) (r : KeywordData)
    (h : t.savedKeywords.any (fun kw => kw.id == r.id) = true) :
    handleSaveKeyword sj wf t r = t := by
  simp [handleSaveKeyword, h]

/-- C3: `saveRecord` is idempotent on `id`: saving the same record twice is
the same as saving it once (so the saved collection is no larger); a
duplicate-id save leaves the state entirely unchanged; and from an empty
saved collection, `saveRecord(A); saveRecord(A); saveRecord(B)` with
distinct ids yields exactly `[A, B]`. -/
theorem saveRecord_idempotent (sj : JsValue → String) (wf : Bool)
    (t s : AppState) (r A B : KeywordData)
    (hAB : A.id ≠ B.id) (hs : s.savedKeywords = []) :
    handleSaveKeyword sj wf (handleSaveKeyword sj wf t r) r = handleSaveKeyword sj wf t r
    ∧ ((handleSaveKeyword sj wf (handleSaveKeyword sj wf t r) r).savedKeywords).length ≤
        ((handleSaveKeyword sj wf t r).savedKeywords).length
    ∧ (t.savedKeywords.any (fun kw => kw.id == r.id) = true →
        handleSaveKeyword sj wf t r = t)
    ∧ (handleSaveKeyword sj wf (handleSaveKeyword sj wf (handleSaveKeyword sj wf s A) A)
        B).savedKeywords = [A, B] := by
  have idem : handleSaveKeyword sj wf (handleSaveKeyword sj wf t r) r
      = handleSaveKeyword sj wf t r := by
    by_cases hc : t.savedKeywords.any (fun kw => kw.id == r.id) = true
    · rw [handleSaveKeyword_of_dup sj wf t r hc, handleSaveKeyword_of_dup sj wf t r hc]
    · apply handleSaveKeyword_of_dup
      simp only [handleSaveKeyword, hc, if_neg, Bool.not_eq_true]
      simp [List.any_append]
  refine ⟨idem, le_of_eq (by rw [idem]), handleSaveKeyword_of_dup sj wf t r, ?_⟩
  have h1 : handleSaveKeyword sj wf s A
      = { s with savedKeywords := [A],
                 store := saveKeywordsToLocalStorage sj wf s.store [A] } := by
    simp [handleSaveKeyword, hs]
  have h2 : handleSaveKeyword sj wf (handleSaveKeyword sj wf s A) A
      = handleSaveKeyword sj wf s A := by
    apply handleSaveKeyword_of_dup
    rw [h1]
    simp
  rw [h2, h1]
  simp [handleSaveKeyword, beq_iff_eq, hAB]

/-- C4: `clearSaved()` empties `savedRecords`, persists the empty collection
under the storage key, resets all three filter axes to no-constraint, and
`visibleSaved()` evaluated afterwards is empty — for every prior state. -/
theorem clearSaved_resets (sj : JsValue → String) (s : AppState) :
    (handleClearAllSavedKeywords sj false s).savedKeywords = []
    ∧ (handleClearAllSavedKeywords sj false s).store LOCAL_STORAGE_KEY
        = some (sj (encodeList []))
    ∧ (handleClearAllSavedKeywords sj false s).selectedDifficultyFilter = none
    ∧ (handleClearAllSavedKeywords sj false s).selectedVolumeFilter = none
    ∧ (handleClearAllSavedKeywords sj false s).selectedCompetitionFilter = none
    ∧ filteredSavedKeywords (handleClearAllSavedKeywords sj false s) = [] := by
  simp [handleClearAllSavedKeywords, saveKeywordsToLocalStorage, lsSetItem,
    filteredSavedKeywords]

/-- C5: `visibleSaved()` is the pure derived view: a record is visible iff it
is saved and satisfies the conjunction of the three per-axis predicates; the
view is a sublist of `savedRecords` (insertion order preserved); and with all
three filters at no-constraint it is exactly `savedRecords`. -/
theorem filteredSaved_spec (s : AppState) :
    (∀ kw, kw ∈ filteredSavedKeywords s ↔
        kw ∈ s.savedKeywords ∧ keywordMatchesFilters s kw = true)
    ∧ List.Sublist (filteredSavedKeywords s) s.savedKeywords
    ∧ (s.selectedDifficultyFilter = none → s.selectedVolumeFilter = none →
        s.selectedCompetitionFilter = none →
        filteredSavedKeywords s = s.savedKeywords) := by
  refine ⟨fun kw => List.mem_filter, List.filter_sublist s.savedKeywords, ?_⟩
  intro h1 h2 h3
  apply List.filter_eq_self.mpr
  intro a _
  simp [keywordMatchesFilters, h1, h2, h3]

theorem filteredSaved_spec_witness :
    filteredSavedKeywords c5State = c5State.savedKeywords :=
  (filteredSaved_spec c5State).2.2 rfl rfl rfl

/-- C8: a failing store write neither rolls back nor escapes: for both
`saveRecord` and `clearSaved`, the in-memory saved collection after a failing
write equals its value after a succeeding write (the new value), the
operation still returns normally, and the failing write leaves the store
untouched. -/
theorem persistenceFailure_no_rollback (sj : JsValue → String)
    (s : AppState) (r : KeywordData) :
    (handleSaveKeyword sj true s r).savedKeywords
        = (handleSaveKeyword sj false s r).savedKeywords
    ∧ (handleSaveKeyword sj true s r).savedKeywords
        = (if s.savedKeywords.any (fun kw => kw.id == r.id) then s.savedKeywords
           else s.savedKeywords ++ [r])
    ∧ (handleSaveKeyword sj true s r).store = s.store
    ∧ (handleClearAllSavedKeywords sj true s).savedKeywords
        = (handleClearAllSavedKeywords sj false s).savedKeywords
    ∧ (handleClearAllSavedKeywords sj true s).savedKeywords = []
    ∧ (handleClearAllSavedKeywords sj true s).store = s.store := by
  by_cases hc : s.savedKeywords.any (fun kw => kw.id == r.id) = true
  · simp [handleSaveKeyword, handleClearAllSavedKeywords,
      saveKeywordsToLocalStorage, hc]
  · simp only [Bool.not_eq_true] at hc
    simp [handleSaveKeyword, handleClearAllSavedKeywords,
      saveKeywordsToLocalStorage, hc]

/-- C1: evaluating the composed pipeline at the failing input.  The service
fails with the exact "entity not found" signature; the client's catch block
re-throws a message that no longer contains the signature, so
`handleGenerateKeywords` takes its generic branch: `credentialAvailable`
(`hasApiKey`) stays `true` instead of becoming `false`, and `lastError` is
the re-thrown client message. -/
theorem entityNotFound_leaves_credential :
    generateKeywordsRethrowMessage ENTITY_NOT_FOUND_SIG = GEMINI_API_KEY_ERROR_MSG
    ∧ strIncludes GEMINI_API_KEY_ERROR_MSG ENTITY_NOT_FOUND_SIG = false
    ∧ (handleGenerateKeywords c1InitialState
        (GenOutcome.failure (generateKeywordsRethrowMessage
          ENTITY_NOT_FOUND_SIG))).hasApiKey = true
    ∧ (handleGenerateKeywords c1InitialState
        (GenOutcome.failure (generateKeywordsRethrowMessage
          ENTITY_NOT_FOUND_SIG))).error = some GEMINI_API_KEY_ERROR_MSG := by
  set_option maxRecDepth 8000 in decide

/-- C6 counterexample: with `credentialAvailable = false` and a non-empty
existing generated batch, the completed `requestGeneration` does not leave
the generated batch unchanged — `setKeywords([])` runs before the guard. -/
theorem requestGeneration_guarded_counterexample :
    ¬ ((handleGenerateKeywords c6State (GenOutcome.success [])).keywords
        = c6State.keywords) := by
  decide

/-- C6 (amended): on the guarded path (`credentialAvailable = false`),
`requestGeneration` sets `lastError` to the key-not-selected message and
completes without consulting the Generation Client's outcome; `savedRecords`,
the filter axes, the credential flag and the store are unchanged; but the
generated batch and `lastError` are cleared before the guard runs (so an
existing batch is emptied), and `busy` ends `false`. -/
theorem requestGeneration_guarded (s : AppState) (o o' : GenOutcome)
    (h : s.hasApiKey = false) :
    handleGenerateKeywords s o = handleGenerateKeywords s o'
    ∧ (handleGenerateKeywords s o).error = some API_KEY_NOT_SELECTED_MSG
    ∧ (handleGenerateKeywords s o).keywords = []
    ∧ (handleGenerateKeywords s o).isLoading = false
    ∧ (handleGenerateKeywords s o).hasApiKey = false
    ∧ (handleGenerateKeywords s o).savedKeywords = s.savedKeywords
    ∧ (handleGenerateKeywords s o).selectedDifficultyFilter
        = s.selectedDifficultyFilter
    ∧ (handleGenerateKeywords s o).selectedVolumeFilter = s.selectedVolumeFilter
    ∧ (handleGenerateKeywords s o).selectedCompetitionFilter
        = s.selectedCompetitionFilter
    ∧ (handleGenerateKeywords s o).store = s.store := by
  simp [handleGenerateKeywords, h]

theorem requestGeneration_guarded_witness :
    (handleGenerateKeywords c6State (GenOutcome.success [sampleKeywordB])).error
      = some API_KEY_NOT_SELECTED_MSG :=
  (requestGeneration_guarded c6State (GenOutcome.success [sampleKeywordB])
    (GenOutcome.failure "boom") rfl).2.1

/-- C2 counterexample: seed "cats" (non-empty) and count 1 (in [1,20]); the
service reply parses successfully into two objects, the second with a
difficulty outside the declared set.  The call returns both records — more
than `count` — and a record whose enumerated field is undeclared. -/
theorem generateKeywords_count_counterexample :
    ¬ ((generateKeywordsAndMetrics "cats" 1 cexUuid cexReply).length ≤ 1
       ∧ ∀ k ∈ generateKeywordsAndMetrics "cats" 1 cexUuid cexReply,
           k.enumsDeclared) := by
  decide

/-- C2 (amended): the Generation Client neither truncates to `count` nor
validates fields: a successful call returns exactly one record per element of
the parsed service reply, in order, with every non-id field copied verbatim
(`stripId` recovers the reply); the ids are the successive `uuid` draws and
are pairwise distinct whenever the draws are (the `crypto.randomUUID`
contract); and the enumerated fields lie in their declared sets whenever the
service reply is schema-compliant. -/
theorem generateKeywords_output (seedKeyword : String) (numKeywords : Nat)
    (uuid : Nat → String) (reply : List RawKeyword)
    (hinj : ∀ i j, i < reply.length → j < reply.length → uuid i = uuid j → i = j) :
    (generateKeywordsAndMetrics seedKeyword numKeywords uuid reply).map stripId
      = reply
    ∧ (generateKeywordsAndMetrics seedKeyword numKeywords uuid reply).map
        KeywordData.id = (List.range reply.length).map uuid
    ∧ ((generateKeywordsAndMetrics seedKeyword numKeywords uuid reply).map
        KeywordData.id).Nodup
    ∧ ((∀ kw ∈ reply, kw.schemaCompliant) →
        ∀ k ∈ generateKeywordsAndMetrics seedKeyword numKeywords uuid reply,
          k.enumsDeclared) := by
  have hstrip : (generateKeywordsAndMetrics seedKeyword numKeywords uuid reply).map
      stripId = reply := assignIds_map_stripId uuid 0 reply
  have hid : (generateKeywordsAndMetrics seedKeyword numKeywords uuid reply).map
      KeywordData.id = (List.range reply.length).map uuid := by
    rw [List.range_eq_range']
    exact assignIds_map_id uuid 0 reply
  refine ⟨hstrip, hid, ?_, ?_⟩
  · rw [hid]
    refine List.Nodup.map_on ?_ (List.nodup_range reply.length)
    intro x hx y hy hxy
    exact hinj x y (List.mem_range.mp hx) (List.mem_range.mp hy) hxy
  · intro hall k hk
    have : stripId k ∈ (generateKeywordsAndMetrics seedKeyword numKeywords uuid
        reply).map stripId := List.mem_map_of_mem stripId hk
    rw [hstrip] at this
    exact hall (stripId k) this

theorem generateKeywords_output_witness :
    ((generateKeywordsAndMetrics "cats" 2 cexUuid
        [stripId sampleKeyword, stripId sampleKeywordB]).map KeywordData.id).Nodup :=
  (generateKeywords_output "cats" 2 cexUuid
    [stripId sampleKeyword, stripId sampleKeywordB]
    (by
      intro i j hi hj h
      simp only [List.length_cons, List.length_nil] at hi hj
      interval_cases i <;> interval_cases j <;>
        first
          | rfl
          | exact absurd h (by decide))).2.2.1

theorem saveRecord_idempotent_witness :
    (handleSaveKeyword c7Stringify false
      (handleSaveKeyword c7Stringify false
        (handleSaveKeyword c7Stringify false c1InitialState sampleKeyword)
        sampleKeyword)
      sampleKeywordB).savedKeywords = [sampleKeyword, sampleKeywordB] :=
  (saveRecord_idempotent c7Stringify false c1InitialState c1InitialState
    sampleKeyword sampleKeyword sampleKeywordB (by decide) rfl).2.2.2

/-- C9: the count-input change handler clamps every parse result into
[1, 20]: values above 20 become 20, values below 1 become 1, a failed
(`NaN`) parse becomes 1; the initial count is in range; and
`handleSubmit`'s out-of-range branch is unreachable for a clamped value. -/
theorem numKeywords_clamped (p : Option Int) (seedKeyword : String) :
    (1 ≤ clampNumKeywords p ∧ clampNumKeywords p ≤ 20)
    ∧ (∀ m, p = some m → 20 < m → clampNumKeywords p = 20)
    ∧ (∀ m, p = some m → m < 1 → clampNumKeywords p = 1)
    ∧ (p = none → clampNumKeywords p = 1)
    ∧ (1 ≤ initialNumKeywords ∧ initialNumKeywords ≤ 20)
    ∧ handleSubmit seedKeyword (clampNumKeywords p) ≠ some NUM_RANGE_ERROR_MSG := by
  have hb : 1 ≤ clampNumKeywords p ∧ clampNumKeywords p ≤ 20 := by
    rcases p with _ | m
    · simp [clampNumKeywords, jsParseIntOr1]
    · simp only [clampNumKeywords, jsParseIntOr1]
      split_ifs <;> omega
  refine ⟨hb, ?_, ?_, ?_, by simp [initialNumKeywords], ?_⟩
  · rintro m rfl hm
    simp only [clampNumKeywords, jsParseIntOr1]
    split_ifs <;> omega
  · rintro m rfl hm
    simp only [clampNumKeywords, jsParseIntOr1]
    split_ifs <;> omega
  · rintro rfl
    simp [clampNumKeywords, jsParseIntOr1]
  · simp only [handleSubmit]
    split_ifs with h1 h2
    · simp [SEED_ERROR_MSG, NUM_RANGE_ERROR_MSG]
    · exfalso
      rcases h2 with h2 | h2 <;> omega
    · simp

theorem numKeywords_clamped_witness :
    clampNumKeywords (some 25) = 20 :=
  (numKeywords_clamped (some 25) "cats").2.1 25 rfl (by norm_num)

theorem map_jstr_inj (l₁ l₂ : List String)
    (h : l₁.map JsValue.jstr = l₂.map JsValue.jstr) : l₁ = l₂ := by
  induction l₁ generalizing l₂ with
  | nil => cases l₂ <;> simp_all
  | cons a t ih =>
    cases l₂ with
    | nil => simp_all
    | cons b t₂ =>
      simp only [List.map_cons, List.cons.injEq, JsValue.jstr.injEq] at h
      rw [h.1, ih t₂ h.2]

theorem encodeKeyword_injective : Function.Injective encodeKeyword := by
  intro a b h
  obtain ⟨aid, akw, ad, asv, acl, acp, aci, asf⟩ := a
  obtain ⟨bid, bkw, bd, bsv, bcl, bcp, bci, bsf⟩ := b
  simp only [encodeKeyword, JsValue.jobj.injEq, List.cons.injEq, Prod.mk.injEq,
    JsValue.jstr.injEq, JsValue.jarr.injEq, true_and, and_true] at h
  obtain ⟨h1, h2, h3, h4, h5, h6, h7, h8⟩ := h
  simp only [KeywordData.mk.injEq]
  exact ⟨h1, h2, h3, h4, h5, h6, map_jstr_inj _ _ h7, map_jstr_inj _ _ h8⟩

theorem encodeList_injective : Function.Injective encodeList := by
  intro l₁ l₂ h
  simp only [encodeList, JsValue.jarr.injEq] at h
  exact List.map_injective_iff.mpr encodeKeyword_injective h

/-- C7: persistence round-trip.  Saving `savedRecords` writes
`JSON.stringify` of its JSON document under the storage key; loading reads
the same key and installs the parsed value.  When the store returns exactly
the written string and the host JSON codec satisfies its round-trip contract
on that document (a stringified array is also never the empty string), the
loaded value is exactly the document of the original collection, which
determines the collection field-for-field and in order (the encoding is
injective). -/
theorem persistence_round_trip (stringifyJs : JsValue → String)
    (parseJs : String → Except Unit JsValue) (store : LocalStorage)
    (l : List KeywordData) (prev : JsValue)
    (hrt : parseJs (stringifyJs (encodeList l)) = Except.ok (encodeList l))
    (hne : stringifyJs (encodeList l) ≠ "") :
    loadSavedKeywords parseJs
        (saveKeywordsToLocalStorage stringifyJs false store l) prev = encodeList l
    ∧ ∀ l₂ : List KeywordData, encodeList l₂ = encodeList l → l₂ = l := by
  constructor
  · simp [loadSavedKeywords, saveKeywordsToLocalStorage, lsSetItem, hrt, hne]
  · intro l₂ h
    exact encodeList_injective h

theorem persistence_round_trip_witness :
    loadSavedKeywords c7Parse
        (saveKeywordsToLocalStorage c7Stringify false emptyStore [sampleKeyword])
        (JsValue.jarr [])
      = encodeList [sampleKeyword] :=
  (persistence_round_trip c7Stringify c7Parse emptyStore [sampleKeyword]
    (JsValue.jarr []) rfl (by decide)).1

/-- C10: the startup load performs no shape validation.  From the initial
empty collection: an absent key keeps the empty value; a stored string that
parses installs the parsed value verbatim, whatever its shape; a stored
string whose parse throws resets to the empty array.  (`JSON.parse("")`
throwing is the host contract hypothesis; the code skips the falsy empty
string, leaving the initial empty value, which coincides with the reset.) -/
theorem load_no_validation (parseJs : String → Except Unit JsValue)
    (store : LocalStorage) (hempty : parseJs "" = Except.error ()) :
    (store LOCAL_STORAGE_KEY = none →
        loadSavedKeywords parseJs store (JsValue.jarr []) = JsValue.jarr [])
    ∧ (∀ str v, store LOCAL_STORAGE_KEY = some str → parseJs str = Except.ok v →
        loadSavedKeywords parseJs store (JsValue.jarr []) = v)
    ∧ (∀ str, store LOCAL_STORAGE_KEY = some str →
        parseJs str = Except.error () →
        loadSavedKeywords parseJs store (JsValue.jarr []) = JsValue.jarr []) := by
  refine ⟨?_, ?_, ?_⟩
  · intro h
    simp [loadSavedKeywords, h]
  · intro str v h hok
    by_cases hs : str = ""
    · subst hs
      rw [hempty] at hok
      exact absurd hok (by simp)
    · simp [loadSavedKeywords, h, hs, hok]
  · intro str h herr
    by_cases hs : str = ""
    · subst hs
      simp [loadSavedKeywords, h]
    · simp [loadSavedKeywords, h, hs, herr]

theorem load_no_validation_witness :
    loadSavedKeywords c10Parse c10Store (JsValue.jarr [])
      = JsValue.jstr "whatever shape" :=
  (load_no_validation c10Parse c10Store rfl).2.1 "stored-json-doc"
    (JsValue.jstr "whatever shape") rfl rfl
